import Mathlib

/-!
Verification of the agentgate-channel plugin: a shallow embedding of the
WebSocket transport client (`src/ws-client.ts`, class `WebSocketClient`) and
the channel message router (`src/channel.ts`, `agentgatePlugin`), together
with proofs of the connection-lifecycle and protocol-translation properties.

Modelling conventions:
- The mutable fields of a `WebSocketClient` instance (`ws`, `reconnectAttempts`,
  `pingInterval`, `destroyed`, `reconnectTimeout`) become a `WSClientState`
  record.  The `ws` field tracks the referenced socket's `readyState`
  (`none` models `this.ws === null`).
- Methods become pure functions `WSClientState → WSClientState × List WSEffect`;
  the effect list records the externally observable actions (socket
  creation/close, timer scheduling, logging, callbacks) in program order.
- Machine timers are not run: `scheduleTimer d` records that a reconnect was
  scheduled after `d` milliseconds; the separate event `timerFire` models the
  timer callback executing (`connect`).
- JavaScript string interpolation is reproduced with `++`; the `.slice(0, 80)`
  truncations become `String.take 80`.
-/

set_option linter.unusedVariables false

namespace AgentGate

/-- The `readyState` of a `ws` WebSocket object. `opened` is `WebSocket.OPEN`. -/
inductive ReadyState
  | connecting
  | opened
  | closing
  | closed
deriving DecidableEq, Repr

/-- The constructor options of `WebSocketClient` (src/ws-client.ts,
`WebSocketClientOptions`), restricted to the data fields; the callback fields
(`onMessage`, `onConnect`, `onError`, `onDisconnect`, `log`) are modelled as
effects. -/
structure WSOptions where
  url : String
  token : String
  reconnectIntervalMs : Nat
  maxReconnectIntervalMs : Nat
  pingIntervalMs : Nat
deriving DecidableEq, Repr

/-- The mutable instance fields of `WebSocketClient` (src/ws-client.ts):
`ws` (modelled by the socket's readyState, `none` when `this.ws === null`),
`reconnectAttempts`, `pingInterval` (`true` when a keepalive interval timer is
installed), `destroyed`, and `reconnectTimeout` (the delay of the pending
reconnect timer, `none` when no timer is pending). -/
structure WSClientState where
  ws : Option ReadyState
  reconnectAttempts : Nat
  pingInterval : Bool
  destroyed : Bool
  reconnectTimeout : Option Nat
deriving DecidableEq, Repr

/-- Inbound wire messages (src/types.ts, `InboundAgentGateMessage`).  The
`from_` field of the chat-message variant is a `String` because the runtime
value arriving over the wire is not validated against the literal type
`"human"`; the router branches on it. -/
inductive InboundAgentGateMessage
  | connected (channelId : String) (humans : List String)
  | human_connected (connId : String)
  | human_disconnected (connId : String)
  | message (from_ : String) (text : String) (id : String) (timestamp : String) (connId : String)
  | wake (id : String) (text : String) (mode : Option String)
  | agent (id : String) (message : String) (name : Option String) (deliver : Option Bool)
      (channel : Option String) (to_ : Option String) (model : Option String)
      (thinking : Option String) (timeoutSeconds : Option Nat)
  | error (error : String)
  | pong
deriving DecidableEq, Repr

/-- An outbound wire frame: the JSON object literal passed to `client.send`.
All fields other than `type` are optional, mirroring the object literals in
src/channel.ts; note that the code sends a frame whose `type` is `"reply"`
(cast with `as any`), which is not one of the variants declared in
`OutboundAgentGateMessage` (src/types.ts), so the frame is modelled as an
open record rather than a closed sum. -/
structure OutboundFrame where
  type : String
  text : Option String := none
  id : Option String := none
  connId : Option String := none
  replyTo : Option String := none
  timestamp : Option String := none
  status : Option String := none
  error : Option String := none
  messageId : Option String := none
deriving DecidableEq, Repr

/-- Observable actions of the transport client (src/ws-client.ts), in program
order. -/
inductive WSEffect
  | logInfo (msg : String)
  | logWarn (msg : String)
  | logError (msg : String)
  | openSocket (url : String)
  | closeSocket (code : Nat) (reason : String)
  | clearPingTimer
  | clearReconnectTimer
  | startPingTimer (intervalMs : Nat)
  | scheduleTimer (delayMs : Nat)
  | notifyDisconnect
  | notifyConnect (channelId : String) (humans : List String)
  | deliverOnMessage (m : InboundAgentGateMessage)
  | sendFrame (f : OutboundFrame)
deriving DecidableEq, Repr

namespace WebSocketClient

/-- Method `isConnected()` (src/ws-client.ts line 62): `this.ws !== null &&
this.ws.readyState === WebSocket.OPEN`. -/
def isConnected (s : WSClientState) : Bool :=
  match s.ws with
  | some ReadyState.opened => true
  | _ => false

/-- Method `send(message)` (src/ws-client.ts line 54): transmit when the socket is
open, otherwise throw `"WebSocket is not connected"`. -/
def send (s : WSClientState) (m : OutboundFrame) : Except String WSEffect :=
  if isConnected s then Except.ok (WSEffect.sendFrame m)
  else Except.error "WebSocket is not connected"

/-- Method `cleanup()` (src/ws-client.ts line 111): clear the keepalive interval
timer when one is installed. -/
def cleanup (s : WSClientState) : WSClientState × List WSEffect :=
  if s.pingInterval then ({ s with pingInterval := false }, [WSEffect.clearPingTimer])
  else (s, [])

/-- Method `stop()` (src/ws-client.ts line 41): set the terminal `destroyed` flag,
clear the keepalive timer, close and null the socket when present, and clear
the pending reconnect timer when present. -/
def stop (s : WSClientState) : WSClientState × List WSEffect :=
  let c := cleanup { s with destroyed := true }
  let closeEffs : List WSEffect :=
    match c.1.ws with
    | some _ => [WSEffect.closeSocket 1000 "stopped"]
    | none => []
  let s2 : WSClientState := { c.1 with ws := none }
  let clearEffs : List WSEffect :=
    match s2.reconnectTimeout with
    | some _ => [WSEffect.clearReconnectTimer]
    | none => []
  ({ s2 with reconnectTimeout := none }, c.2 ++ closeEffs ++ clearEffs)

/-- Expression `url.replace(/^http/, "ws")` (src/ws-client.ts line 69). -/
def replaceHttpPrefix (url : String) : String :=
  if url.startsWith "http" then "ws" ++ url.drop 4 else url

/-- The connection URL built in `connect()`: `url.replace(/^http/, "ws") +
"/api/channel/"`. -/
def wsUrl (opts : WSOptions) : String :=
  replaceHttpPrefix opts.url ++ "/api/channel/"

/-- Method `connect()` (src/ws-client.ts line 66): early-return when `destroyed`;
otherwise create a new socket (readyState `connecting`) and install the event
handlers. -/
def connect (opts : WSOptions) (s : WSClientState) : WSClientState × List WSEffect :=
  if s.destroyed then (s, [])
  else
    ({ s with ws := some ReadyState.connecting },
     [WSEffect.logInfo ("Connecting to AgentGate: " ++ wsUrl opts),
      WSEffect.openSocket (wsUrl opts)])

/-- The `"open"` event handler (src/ws-client.ts line 78): the socket's
readyState becomes OPEN, `reconnectAttempts` is reset to `0`, and `startPing`
installs the keepalive interval timer. -/
def handleOpen (opts : WSOptions) (s : WSClientState) : WSClientState × List WSEffect :=
  ({ s with
      ws := s.ws.map (fun _ => ReadyState.opened),
      reconnectAttempts := 0,
      pingInterval := true },
   [WSEffect.logInfo "Connected to AgentGate channel",
    WSEffect.startPingTimer opts.pingIntervalMs])

/-- The backoff expression of `scheduleReconnect` (src/ws-client.ts line 130):
`Math.min(reconnectIntervalMs * Math.pow(2, attempt - 1), maxReconnectIntervalMs)`
for the given (already incremented) attempt count. -/
def reconnectDelay (opts : WSOptions) (attempt : Nat) : Nat :=
  min (opts.reconnectIntervalMs * 2 ^ (attempt - 1)) opts.maxReconnectIntervalMs

/-- Method `scheduleReconnect()` (src/ws-client.ts line 126): early-return when
`destroyed`; otherwise increment the attempt count, compute the capped
exponential delay, and schedule a `connect` after that delay. -/
def scheduleReconnect (opts : WSOptions) (s : WSClientState) : WSClientState × List WSEffect :=
  if s.destroyed then (s, [])
  else
    let attempts := s.reconnectAttempts + 1
    let delay := reconnectDelay opts attempts
    ({ s with reconnectAttempts := attempts, reconnectTimeout := some delay },
     [WSEffect.logInfo ("Reconnecting in " ++ toString delay ++ "ms (attempt "
        ++ toString attempts ++ ")"),
      WSEffect.scheduleTimer delay])

/-- The `"close"` event handler (src/ws-client.ts line 98): log, `cleanup()`,
invoke `onDisconnect`, then `scheduleReconnect()`.  (The handler does not
touch `this.ws`.) -/
def handleClose (opts : WSOptions) (code : Nat) (reason : String) (s : WSClientState) :
    WSClientState × List WSEffect :=
  let c := cleanup s
  let r := scheduleReconnect opts c.1
  (r.1,
   WSEffect.logWarn ("AgentGate WebSocket closed: " ++ toString code ++ " " ++ reason)
     :: c.2 ++ [WSEffect.notifyDisconnect] ++ r.2)

/-- The `"message"` event handler (src/ws-client.ts line 84).  `parsed` is the
result of `JSON.parse` on the received unit (`none` models a parse failure,
i.e. `JSON.parse` threw); `handlerThrows` models the awaited
`onMessage`/`onConnect` callback throwing.  Both failure modes are caught by
the surrounding `try`/`catch`, which only logs; no instance field is
modified on any path. -/
def wsHandleData (s : WSClientState) (parsed : Option InboundAgentGateMessage)
    (handlerThrows : Bool) : WSClientState × List WSEffect :=
  match parsed with
  | none => (s, [WSEffect.logError "Failed to parse message"])
  | some m =>
      let connectEffs : List WSEffect :=
        match m with
        | InboundAgentGateMessage.connected cid hs => [WSEffect.notifyConnect cid hs]
        | _ => []
      if handlerThrows then
        (s, connectEffs ++ [WSEffect.deliverOnMessage m,
                            WSEffect.logError "Failed to parse message"])
      else
        (s, connectEffs ++ [WSEffect.deliverOnMessage m])

/-- The events that can still reach a client after `stop()` has run: a close
event queued on the old socket, the firing of a previously scheduled
reconnect timer (`setTimeout(() => this.connect(), delay)`), and a repeated
`stop()` call. -/
inductive WSPostEvent
  | closeEvent (code : Nat) (reason : String)
  | timerFire
  | stopAgain
deriving DecidableEq, Repr

/-- Dispatch one post-`stop` event to the corresponding handler. -/
def stepPost (opts : WSOptions) (s : WSClientState) : WSPostEvent → WSClientState × List WSEffect
  | WSPostEvent.closeEvent c r => handleClose opts c r s
  | WSPostEvent.timerFire => connect opts s
  | WSPostEvent.stopAgain => stop s

/-- Run a sequence of events, accumulating the emitted effects. -/
def runPost (opts : WSOptions) (s : WSClientState) :
    List WSPostEvent → WSClientState × List WSEffect
  | [] => (s, [])
  | e :: es =>
      let r1 := stepPost opts s e
      let r2 := runPost opts r1.1 es
      (r2.1, r1.2 ++ r2.2)

/-- The state after `n` consecutive close events (no successful reopen in
between). -/
def afterCloses (opts : WSOptions) (s : WSClientState) : Nat → WSClientState
  | 0 => s
  | n + 1 => (handleClose opts 1006 "" (afterCloses opts s n)).1

/-- The reconnect delays recorded in an effect list. -/
def scheduledDelays (effs : List WSEffect) : List Nat :=
  effs.filterMap (fun e =>
    match e with
    | WSEffect.scheduleTimer d => some d
    | _ => none)

/-- The delays scheduled by the `n`-th consecutive close event (`n ≥ 1`). -/
def nthCloseDelays (opts : WSOptions) (s : WSClientState) (n : Nat) : List Nat :=
  scheduledDelays (handleClose opts 1006 "" (afterCloses opts s (n - 1))).2

/-- Returns `true` for the effects that would constitute a reconnect attempt: the
scheduling of a reconnect timer or the opening of a new socket. -/
def isReconnectEffect : WSEffect → Bool
  | WSEffect.scheduleTimer _ => true
  | WSEffect.openSocket _ => true
  | _ => false

/-- Returns `true` for the effect of closing the socket. -/
def isCloseEffect : WSEffect → Bool
  | WSEffect.closeSocket _ _ => true
  | _ => false

end WebSocketClient

/-! ## Channel layer (src/channel.ts, `agentgatePlugin`) -/

/-- The resolved local-hooks configuration (src/channel.ts, `HooksConfig`). -/
structure HooksConfig where
  enabled : Bool
  wakeUrl : String
  agentUrl : String
  token : String
deriving DecidableEq, Repr

/-- The raw OpenClaw config fields read by `resolveHooksConfig`
(src/channel.ts line 30): `cfg.gateway?.port`, `cfg.hooks?.token`,
`cfg.hooks?.path`, `cfg.hooks?.enabled`.  `none` models an absent field. -/
structure RawOpenClawConfig where
  gatewayPort : Option Nat
  hooksToken : Option String
  hooksPath : Option String
  hooksEnabled : Option Bool
deriving DecidableEq, Repr

/-- Expression `path.replace(/\/+$/, "")`: drop every trailing slash. -/
def stripTrailingSlashes (s : String) : String :=
  String.mk ((s.data.reverse.dropWhile (fun c => c == '/')).reverse)

/-- Function `resolveHooksConfig(cfg)` (src/channel.ts line 30).  `Boolean(hooksToken)`
is `false` exactly on the empty string, and `hooks?.enabled === true` is
`true` only when the field is present and `true`. -/
def resolveHooksConfig (cfg : RawOpenClawConfig) : HooksConfig :=
  let gatewayPort := cfg.gatewayPort.getD 18789
  let hooksToken := cfg.hooksToken.getD ""
  let hooksPath := (cfg.hooksPath.map stripTrailingSlashes).getD "/hooks"
  let hooksEnabled : Bool :=
    match cfg.hooksEnabled with
    | some true => true
    | _ => false
  let basePath := if hooksPath.startsWith "/" then hooksPath else "/" ++ hooksPath
  { enabled := hooksEnabled && !hooksToken.isEmpty
    wakeUrl := "http://127.0.0.1:" ++ toString gatewayPort ++ basePath ++ "/wake"
    agentUrl := "http://127.0.0.1:" ++ toString gatewayPort ++ basePath ++ "/agent"
    token := hooksToken }

/-- The result shape of `postLocalHook` (src/channel.ts line 48):
`ok` is `status === 200 || status === 202` on an HTTP response and `false` on
a transport error. -/
structure HookResult where
  ok : Bool
  status : Nat
  body : String
deriving DecidableEq, Repr

/-- The JSON body POSTed to the agent hook (src/channel.ts lines 279-288).
A field with value `none` is omitted from the payload (the code only assigns
a key when the condition holds, so absent fields are never sent as null). -/
structure AgentHookBody where
  message : String
  name : String
  deliver : Option Bool := none
  channel : Option String := none
  to_ : Option String := none
  model : Option String := none
  thinking : Option String := none
  timeoutSeconds : Option Nat := none
deriving DecidableEq, Repr

/-- The JSON body of a local-hook POST. -/
inductive HookBody
  | wakeBody (text : String) (mode : String)
  | agentBody (b : AgentHookBody)
deriving DecidableEq, Repr

/-- A partial status update passed to `setStatus` (src/channel.ts).  A `none`
field is not part of the update; `lastError := some none` models an explicit
`lastError: null`. -/
structure StatusPatch where
  accountId : String
  running : Option Bool := none
  connected : Option Bool := none
  lastConnectedAt : Option Nat := none
  lastError : Option (Option String) := none
deriving DecidableEq, Repr

/-- The argument object of `handleInboundMessage` (src/channel.ts lines
207-213), without the `reply` closure (modelled separately by
`replyCallback`). -/
structure PipelineCall where
  channel : String
  accountId : String
  senderId : String
  chatType : String
  chatId : String
  text : String
deriving DecidableEq, Repr

/-- Observable actions of the channel's `onMessage` handler, in program
order. -/
inductive ChanEffect
  | logInfo (msg : String)
  | logWarn (msg : String)
  | logError (msg : String)
  | logDebug (msg : String)
  | setStatus (patch : StatusPatch)
  | handleInboundMessage (call : PipelineCall)
  | httpPost (url : String) (token : String) (body : HookBody)
  | sendFrame (f : OutboundFrame)
deriving DecidableEq, Repr

/-- JavaScript truthiness on an optional string field: an absent field and an
empty string are both falsy. -/
def truthyStr : Option String → Option String
  | some s => if s.isEmpty then none else some s
  | none => none

/-- JavaScript truthiness on an optional number field: an absent field and
`0` are both falsy. -/
def truthyNat : Option Nat → Option Nat
  | some n => if n = 0 then none else some n
  | none => none

/-- The `reply` closure passed to `handleInboundMessage` (src/channel.ts
lines 214-224): when `client.isConnected()` it sends a frame tagged
`"reply"` (cast `as any`) with `replyTo` set to the inbound message's id,
a fresh uuid `id` and a fresh ISO `timestamp`; otherwise it does nothing. -/
def replyCallback (clientConnected : Bool) (origMessageId : String)
    (genId : String) (genTimestamp : String) (responseText : String) : List ChanEffect :=
  if clientConnected then
    [ChanEffect.sendFrame
      { type := "reply", text := some responseText, id := some genId,
        replyTo := some origMessageId, timestamp := some genTimestamp }]
  else []

/-- The `onMessage` callback installed on the `WebSocketClient`
(src/channel.ts lines 179-318).  Parameters model the closure's captured
environment and the outcome of external calls: `hookResult` is the resolved
value of the awaited `postLocalHook` (only consulted on the `wake`/`agent`
branches with hooks enabled), `now` is `Date.now()`.  The effect list records
the handler's actions in program order. -/
def onMessage (hooks : HooksConfig) (accountId : String) (hookResult : HookResult)
    (now : Nat) (msg : InboundAgentGateMessage) : List ChanEffect :=
  match msg with
  | InboundAgentGateMessage.connected channelId humans =>
      [ChanEffect.logInfo ("Channel " ++ channelId ++ " connected, "
          ++ toString humans.length ++ " human(s) online"),
       ChanEffect.setStatus
         { accountId := accountId, running := some true, connected := some true,
           lastConnectedAt := some now, lastError := some none }]
  | InboundAgentGateMessage.human_connected connId =>
      [ChanEffect.logInfo ("Human connected: " ++ connId)]
  | InboundAgentGateMessage.human_disconnected connId =>
      [ChanEffect.logInfo ("Human disconnected: " ++ connId)]
  | InboundAgentGateMessage.message from_ text id timestamp connId =>
      if from_ = "human" then
        [ChanEffect.logDebug ("Chat from " ++ connId ++ ": " ++ text.take 80 ++ "..."),
         ChanEffect.handleInboundMessage
           { channel := "agentgate", accountId := accountId, senderId := connId,
             chatType := "direct", chatId := connId, text := text }]
      else []
  | InboundAgentGateMessage.wake id text mode =>
      ChanEffect.logInfo ("Wake event: " ++ text.take 80) ::
      (if !hooks.enabled then
        [ChanEffect.logError "Cannot process wake: hooks not enabled",
         ChanEffect.sendFrame
           { type := "error", error := some "Hooks not enabled in OpenClaw config",
             messageId := some id }]
      else
        ChanEffect.httpPost hooks.wakeUrl hooks.token
            (HookBody.wakeBody text (mode.getD "now")) ::
        (if hookResult.ok then
          [ChanEffect.logInfo ("Wake dispatched: " ++ id),
           ChanEffect.sendFrame { type := "ack", id := some id, status := some "dispatched" }]
        else
          [ChanEffect.logError ("Wake failed (" ++ toString hookResult.status ++ "): "
              ++ hookResult.body),
           ChanEffect.sendFrame
             { type := "ack", id := some id, status := some "error",
               error := some ("Hook returned " ++ toString hookResult.status) }]))
  | InboundAgentGateMessage.agent id message name deliver channel to_ model thinking
      timeoutSeconds =>
      ChanEffect.logInfo ("Agent turn: " ++ name.getD "unnamed" ++ " — " ++ message.take 80) ::
      (if !hooks.enabled then
        [ChanEffect.logError "Cannot process agent turn: hooks not enabled",
         ChanEffect.sendFrame
           { type := "error", error := some "Hooks not enabled in OpenClaw config",
             messageId := some id }]
      else
        ChanEffect.httpPost hooks.agentUrl hooks.token
            (HookBody.agentBody
              { message := message, name := name.getD "agentgate", deliver := deliver,
                channel := truthyStr channel, to_ := truthyStr to_,
                model := truthyStr model, thinking := truthyStr thinking,
                timeoutSeconds := truthyNat timeoutSeconds }) ::
        (if hookResult.ok then
          [ChanEffect.logInfo ("Agent turn dispatched: " ++ id),
           ChanEffect.sendFrame { type := "ack", id := some id, status := some "dispatched" }]
        else
          [ChanEffect.logError ("Agent turn failed (" ++ toString hookResult.status ++ "): "
              ++ hookResult.body),
           ChanEffect.sendFrame
             { type := "ack", id := some id, status := some "error",
               error := some ("Hook returned " ++ toString hookResult.status) }]))
  | InboundAgentGateMessage.error err =>
      [ChanEffect.logError ("AgentGate error: " ++ err),
       ChanEffect.setStatus { accountId := accountId, lastError := some (some err) }]
  | InboundAgentGateMessage.pong => []

/-- Constant `DEFAULT_ACCOUNT_ID` from the plugin SDK. -/
def DEFAULT_ACCOUNT_ID : String := "default"

/-- The result object of a successful `sendText` (src/channel.ts lines
135-139). -/
structure SendTextResult where
  channel : String
  to_ : String
  messageId : String
deriving DecidableEq, Repr

/-- Lookup in the `activeClients` registry (src/channel.ts line 20), modelled
as an association list from account id to client state;
`activeClients.get(aid)`. -/
def lookupClient (clients : List (String × WSClientState)) (aid : String) :
    Option WSClientState :=
  (clients.find? (fun p => p.1 = aid)).map (fun p => p.2)

/-- Operation `agentgatePlugin.outbound.sendText` (src/channel.ts lines 120-140):
resolve the account id (`accountId ?? DEFAULT_ACCOUNT_ID`), look the client
up in `activeClients`, throw a "not connected" error naming the account when
the client is absent or not connected, otherwise send a `"message"` frame
through the client and return the delivery receipt.  `genId` models
`crypto.randomUUID()`.  On success the value carries the transmitted frame
(as the `send` effect); on error no frame is sent. -/
def sendText (clients : List (String × WSClientState)) (accountId : Option String)
    (to_ : String) (text : Option String) (genId : String) :
    Except String (SendTextResult × WSEffect) :=
  let aid := accountId.getD DEFAULT_ACCOUNT_ID
  match lookupClient clients aid with
  | none => Except.error ("AgentGate WebSocket not connected for account " ++ aid)
  | some client =>
      if WebSocketClient.isConnected client then
        match WebSocketClient.send client
            { type := "message", text := some (text.getD ""), id := some genId,
              connId := some to_ } with
        | Except.ok eff =>
            Except.ok ({ channel := "agentgate", to_ := to_, messageId := genId }, eff)
        | Except.error e => Except.error e
      else Except.error ("AgentGate WebSocket not connected for account " ++ aid)

/-- The frames sent by a list of channel effects. -/
def sentFrames (effs : List ChanEffect) : List OutboundFrame :=
  effs.filterMap (fun e =>
    match e with
    | ChanEffect.sendFrame f => some f
    | _ => none)

/-- The host-pipeline delivery calls made by a list of channel effects. -/
def pipelineCalls (effs : List ChanEffect) : List PipelineCall :=
  effs.filterMap (fun e =>
    match e with
    | ChanEffect.handleInboundMessage c => some c
    | _ => none)

/-- Returns `true` for the effect of an HTTP POST to a local hook endpoint. -/
def isHttpPost : ChanEffect → Bool
  | ChanEffect.httpPost _ _ _ => true
  | _ => false

/-- Returns `true` for a `setStatus` effect. -/
def isSetStatus : ChanEffect → Bool
  | ChanEffect.setStatus _ => true
  | _ => false

/-! ## Concrete fixtures used by witnesses and counterexamples -/

/-- Options with the documented default intervals (base 5000ms, max 60000ms,
ping 30000ms). -/
def exampleOpts : WSOptions :=
  { url := "https://example.com", token := "t", reconnectIntervalMs := 5000,
    maxReconnectIntervalMs := 60000, pingIntervalMs := 30000 }

/-- A client whose socket is open, as right after a successful `"open"`
event. -/
def openClient : WSClientState :=
  { ws := some ReadyState.opened, reconnectAttempts := 0, pingInterval := true,
    destroyed := false, reconnectTimeout := none }

/-- A client whose socket is open but that has accumulated seven reconnect
attempts. -/
def staleClient : WSClientState :=
  { ws := some ReadyState.opened, reconnectAttempts := 7, pingInterval := true,
    destroyed := false, reconnectTimeout := none }

/-- A client whose socket is closed (not OPEN). -/
def closedClient : WSClientState :=
  { ws := some ReadyState.closed, reconnectAttempts := 2, pingInterval := false,
    destroyed := false, reconnectTimeout := none }

/-- The hooks configuration resolved from an OpenClaw config in which hooks
are disabled and no token is set. -/
def hooksDisabled : HooksConfig :=
  resolveHooksConfig
    { gatewayPort := some 18789, hooksToken := some "", hooksPath := some "/hooks",
      hooksEnabled := some false }

/-- A successful local-hook HTTP result. -/
def hookOk : HookResult := { ok := true, status := 200, body := "" }

/-- The frame the reply callback sends for inbound message id `"msg1"`,
response text `"hello back"`, generated uuid `"gen-id"` and generated
timestamp `"ts1"`. -/
def replyFrameExample : OutboundFrame :=
  { type := "reply", text := some "hello back", id := some "gen-id",
    replyTo := some "msg1", timestamp := some "ts1" }

/-! ## Helper lemmas -/

/-- Lemma: `cleanup` only lowers the keepalive-timer flag. -/
theorem cleanup_fst (s : WSClientState) :
    (WebSocketClient.cleanup s).1 = { s with pingInterval := false } := by
  cases s with
  | mk ws ra pi d rt => cases pi <;> simp [WebSocketClient.cleanup]

/-- The state after `stop()`: socket nulled, keepalive timer cleared,
`destroyed` set, pending reconnect timer cleared; the attempt count is left
as it was. -/
theorem stop_fst (s : WSClientState) :
    (WebSocketClient.stop s).1 =
      { ws := none, reconnectAttempts := s.reconnectAttempts, pingInterval := false,
        destroyed := true, reconnectTimeout := none } := by
  cases s with
  | mk ws ra pi d rt =>
      cases pi <;> cases ws <;> cases rt <;>
        simp [WebSocketClient.stop, WebSocketClient.cleanup]

/-- Lemma: `connect` is a no-op on a destroyed client. -/
theorem connect_of_destroyed (opts : WSOptions) (s : WSClientState)
    (h : s.destroyed = true) : WebSocketClient.connect opts s = (s, []) := by
  simp [WebSocketClient.connect, h]

/-- Lemma: `scheduleReconnect` is a no-op on a destroyed client. -/
theorem scheduleReconnect_of_destroyed (opts : WSOptions) (s : WSClientState)
    (h : s.destroyed = true) : WebSocketClient.scheduleReconnect opts s = (s, []) := by
  simp [WebSocketClient.scheduleReconnect, h]

/-- The state after a close event on a live client: keepalive timer cleared,
attempt count incremented, a reconnect timer pending. -/
theorem handleClose_fst (opts : WSOptions) (c : Nat) (r : String) (s : WSClientState)
    (h : s.destroyed = false) :
    (WebSocketClient.handleClose opts c r s).1 =
      { s with pingInterval := false,
               reconnectAttempts := s.reconnectAttempts + 1,
               reconnectTimeout :=
                 some (WebSocketClient.reconnectDelay opts (s.reconnectAttempts + 1)) } := by
  cases s with
  | mk ws ra pi d rt =>
      simp only [] at h
      subst h
      cases pi <;>
        simp [WebSocketClient.handleClose, WebSocketClient.cleanup,
          WebSocketClient.scheduleReconnect]

/-- A close event on a live client schedules exactly one reconnect, after the
capped exponential delay for the incremented attempt count. -/
theorem handleClose_delays (opts : WSOptions) (c : Nat) (r : String) (s : WSClientState)
    (h : s.destroyed = false) :
    WebSocketClient.scheduledDelays (WebSocketClient.handleClose opts c r s).2
      = [WebSocketClient.reconnectDelay opts (s.reconnectAttempts + 1)] := by
  cases s with
  | mk ws ra pi d rt =>
      simp only [] at h
      subst h
      cases pi <;>
        simp [WebSocketClient.handleClose, WebSocketClient.cleanup,
          WebSocketClient.scheduleReconnect, WebSocketClient.scheduledDelays]

/-- Consecutive close events on a live client keep it live and increment the
attempt count once per close. -/
theorem afterCloses_spec (opts : WSOptions) (s : WSClientState)
    (h : s.destroyed = false) (k : Nat) :
    (WebSocketClient.afterCloses opts s k).destroyed = false
    ∧ (WebSocketClient.afterCloses opts s k).reconnectAttempts
        = s.reconnectAttempts + k := by
  induction k with
  | zero => exact ⟨h, rfl⟩
  | succ n ih =>
      have h1 := handleClose_fst opts 1006 "" _ ih.1
      constructor
      · show (WebSocketClient.afterCloses opts s (n + 1)).destroyed = false
        rw [WebSocketClient.afterCloses, h1]
        exact ih.1
      · show (WebSocketClient.afterCloses opts s (n + 1)).reconnectAttempts = _
        rw [WebSocketClient.afterCloses, h1]
        simp [ih.2]
        omega

/-- One post-`stop` event on a destroyed client keeps it destroyed and emits
neither a reconnect-timer scheduling nor a socket opening. -/
theorem stepPost_of_destroyed (opts : WSOptions) (s : WSClientState) (e : WebSocketClient.WSPostEvent)
    (h : s.destroyed = true) :
    (WebSocketClient.stepPost opts s e).1.destroyed = true
    ∧ ((WebSocketClient.stepPost opts s e).2.all
        (fun x => !WebSocketClient.isReconnectEffect x)) = true := by
  cases e with
  | closeEvent c r =>
      cases s with
      | mk ws ra pi d rt =>
          simp only [] at h
          subst h
          cases pi <;>
            simp [WebSocketClient.stepPost, WebSocketClient.handleClose,
              WebSocketClient.cleanup, WebSocketClient.scheduleReconnect,
              WebSocketClient.isReconnectEffect]
  | timerFire =>
      rw [WebSocketClient.stepPost, connect_of_destroyed opts s h]
      exact ⟨h, rfl⟩
  | stopAgain =>
      cases s with
      | mk ws ra pi d rt =>
          cases pi <;> cases ws <;> cases rt <;>
            simp [WebSocketClient.stepPost, WebSocketClient.stop,
              WebSocketClient.cleanup, WebSocketClient.isReconnectEffect]

/-- Running any sequence of post-`stop` events on a destroyed client keeps it
destroyed and never schedules a reconnect or opens a socket. -/
theorem runPost_of_destroyed (opts : WSOptions) (evs : List WebSocketClient.WSPostEvent) :
    ∀ s : WSClientState, s.destroyed = true →
      (WebSocketClient.runPost opts s evs).1.destroyed = true
      ∧ ((WebSocketClient.runPost opts s evs).2.all
          (fun x => !WebSocketClient.isReconnectEffect x)) = true := by
  induction evs with
  | nil => intro s h; exact ⟨h, rfl⟩
  | cons e es ih =>
      intro s h
      have h1 := stepPost_of_destroyed opts s e h
      have h2 := ih _ h1.1
      refine ⟨?_, ?_⟩
      · simp only [WebSocketClient.runPost]
        exact h2.1
      · simp only [WebSocketClient.runPost, List.all_append]
        rw [h1.2, h2.2]
        rfl

/-! ## Claim theorems -/

/-- C4: for every attempt count `n ≥ 1` and configured base and max
intervals, the reconnect delay scheduled after the `n`-th consecutive
unexpected close (starting from a freshly opened client, attempt count 0)
equals `min (base * 2 ^ (n - 1)) max`; the delay is monotonically
non-decreasing in `n` and never exceeds `max`; with base 5000 and max 60000
the first six delays are 5000, 10000, 20000, 40000, 60000, 60000. -/
theorem reconnect_backoff_formula (opts : WSOptions) (s : WSClientState) (n : Nat)
    (hn : 1 ≤ n) (ha : s.reconnectAttempts = 0) (hd : s.destroyed = false) :
    WebSocketClient.nthCloseDelays opts s n
      = [min (opts.reconnectIntervalMs * 2 ^ (n - 1)) opts.maxReconnectIntervalMs]
    ∧ WebSocketClient.reconnectDelay opts n ≤ WebSocketClient.reconnectDelay opts (n + 1)
    ∧ WebSocketClient.reconnectDelay opts n ≤ opts.maxReconnectIntervalMs
    ∧ (List.range 6).map (fun k => WebSocketClient.reconnectDelay exampleOpts (k + 1))
        = [5000, 10000, 20000, 40000, 60000, 60000] := by
  obtain ⟨m, rfl⟩ : ∃ m, n = m + 1 := ⟨n - 1, (Nat.succ_pred_eq_of_pos hn).symm⟩
  refine ⟨?_, ?_, min_le_right _ _, by decide⟩
  · have hs := afterCloses_spec opts s hd m
    unfold WebSocketClient.nthCloseDelays
    rw [Nat.add_sub_cancel, handleClose_delays _ _ _ _ hs.1, hs.2, ha]
    simp [WebSocketClient.reconnectDelay]
  · unfold WebSocketClient.reconnectDelay
    refine min_le_min (Nat.mul_le_mul le_rfl ?_) le_rfl
    exact Nat.pow_le_pow_right (by norm_num) (by omega)

/-- Witness for C4 at `n = 3` with the default intervals: the third
consecutive close schedules a 20000ms delay. -/
theorem reconnect_backoff_formula_example :
    WebSocketClient.nthCloseDelays exampleOpts openClient 3 = [20000] := by
  have h := (reconnect_backoff_formula exampleOpts openClient 3 (by norm_num) rfl rfl).1
  simpa using h

/-- C5: a successful open event resets the attempt counter to zero, so the
delay scheduled for the next disconnect equals the base interval (attempt
count 1), regardless of how many reconnect attempts preceded the open
(provided the configured base does not exceed the configured max). -/
theorem backoff_resets_after_open (opts : WSOptions) (s : WSClientState)
    (hd : s.destroyed = false)
    (hbm : opts.reconnectIntervalMs ≤ opts.maxReconnectIntervalMs) :
    WebSocketClient.scheduledDelays
        (WebSocketClient.handleClose opts 1006 ""
          (WebSocketClient.handleOpen opts s).1).2
      = [opts.reconnectIntervalMs] := by
  have h1 : (WebSocketClient.handleOpen opts s).1.destroyed = false := by
    simp [WebSocketClient.handleOpen, hd]
  have h2 : (WebSocketClient.handleOpen opts s).1.reconnectAttempts = 0 := by
    simp [WebSocketClient.handleOpen]
  rw [handleClose_delays _ _ _ _ h1, h2]
  simp [WebSocketClient.reconnectDelay, Nat.min_eq_left hbm]

/-- Witness for C5: a client with seven accumulated reconnect attempts, after
a successful open and a subsequent close, schedules the base 5000ms delay. -/
theorem backoff_resets_after_open_example :
    WebSocketClient.scheduledDelays
        (WebSocketClient.handleClose exampleOpts 1006 ""
          (WebSocketClient.handleOpen exampleOpts staleClient).1).2
      = [5000] :=
  backoff_resets_after_open exampleOpts staleClient rfl (by decide)

/-- C6: once `stop()` has executed, every state reachable through any
sequence of queued close events, pending reconnect-timer firings and repeated
`stop()` calls still has the `destroyed` flag set, `connect` and
`scheduleReconnect` return without effect there, and no effect of the whole
run schedules a reconnect timer or opens a socket. -/
theorem stop_is_absorbing_no_reconnect (opts : WSOptions) (s : WSClientState)
    (evs : List WebSocketClient.WSPostEvent) :
    (WebSocketClient.runPost opts (WebSocketClient.stop s).1 evs).1.destroyed = true
    ∧ WebSocketClient.connect opts
        (WebSocketClient.runPost opts (WebSocketClient.stop s).1 evs).1
      = ((WebSocketClient.runPost opts (WebSocketClient.stop s).1 evs).1, [])
    ∧ WebSocketClient.scheduleReconnect opts
        (WebSocketClient.runPost opts (WebSocketClient.stop s).1 evs).1
      = ((WebSocketClient.runPost opts (WebSocketClient.stop s).1 evs).1, [])
    ∧ ((WebSocketClient.runPost opts (WebSocketClient.stop s).1 evs).2.all
        (fun x => !WebSocketClient.isReconnectEffect x)) = true := by
  have hstop : (WebSocketClient.stop s).1.destroyed = true := by rw [stop_fst]
  have h := runPost_of_destroyed opts evs _ hstop
  exact ⟨h.1, connect_of_destroyed _ _ h.1, scheduleReconnect_of_destroyed _ _ h.1, h.2⟩

/-- C8: `stop()` is idempotent: a second call returns the same state and
performs no side effect at all (and, being a total function, throws
nothing). -/
theorem stop_idempotent (s : WSClientState) :
    WebSocketClient.stop (WebSocketClient.stop s).1 = ((WebSocketClient.stop s).1, []) := by
  rw [stop_fst]
  simp [WebSocketClient.stop, WebSocketClient.cleanup]

/-- C9: a received data unit that fails to parse as JSON is discarded with
only an error log — the client state (socket, liveness, attempt count,
destroyed flag, timers) is unchanged and no exception propagates; and even
when the unit parses but its handling throws, the state is unchanged and the
connection is never closed. -/
theorem malformed_data_discarded_state_unchanged (s : WSClientState)
    (handlerThrows : Bool) (m : InboundAgentGateMessage) :
    WebSocketClient.wsHandleData s none handlerThrows
        = (s, [WSEffect.logError "Failed to parse message"])
    ∧ (WebSocketClient.wsHandleData s (some m) handlerThrows).1 = s
    ∧ ((WebSocketClient.wsHandleData s (some m) handlerThrows).2.all
        (fun e => !WebSocketClient.isCloseEffect e)) = true := by
  refine ⟨rfl, ?_, ?_⟩ <;> cases m <;> cases handlerThrows <;>
    simp [WebSocketClient.wsHandleData, WebSocketClient.isCloseEffect]

/-- C1: for every account identifier, `sendText` succeeds — transmitting a
`"message"` frame addressed to the recipient — iff a client for the resolved
account id (`accountId ?? DEFAULT_ACCOUNT_ID`) is present in `activeClients`
and its `isConnected()` is true; in every other case it fails with the
"not connected" error naming that account id, and no frame is sent. -/
theorem sendText_succeeds_iff_client_connected
    (clients : List (String × WSClientState)) (accountId : Option String)
    (to_ : String) (text : Option String) (genId : String) :
    ((∃ v, sendText clients accountId to_ text genId = Except.ok v)
        ↔ ∃ c, lookupClient clients (accountId.getD DEFAULT_ACCOUNT_ID) = some c
            ∧ WebSocketClient.isConnected c = true)
    ∧ (∀ e, sendText clients accountId to_ text genId = Except.error e →
        e = "AgentGate WebSocket not connected for account "
              ++ accountId.getD DEFAULT_ACCOUNT_ID)
    ∧ (∀ v, sendText clients accountId to_ text genId = Except.ok v →
        v.2 = WSEffect.sendFrame
          { type := "message", text := some (text.getD ""), id := some genId,
            connId := some to_ }) := by
  unfold sendText
  cases h : lookupClient clients (accountId.getD DEFAULT_ACCOUNT_ID) with
  | none => simp [h]
  | some c =>
      cases hc : WebSocketClient.isConnected c with
      | true => simp [h, WebSocketClient.send, hc]
      | false => simp [h, hc]

/-- Witness for C1: with the registry holding an open client under
`"default"` and no explicit account id, `sendText` succeeds; with an empty
registry it fails with the error naming `"default"`. -/
theorem sendText_succeeds_iff_client_connected_example :
    (∃ v, sendText [("default", openClient)] none "u1" (some "hi") "id1" = Except.ok v)
    ∧ (∀ e, sendText [] none "u1" (some "hi") "id1" = Except.error e →
        e = "AgentGate WebSocket not connected for account " ++ "default") := by
  constructor
  · exact (sendText_succeeds_iff_client_connected [("default", openClient)] none "u1"
      (some "hi") "id1").1.mpr ⟨openClient, by decide, by decide⟩
  · exact (sendText_succeeds_iff_client_connected [] none "u1" (some "hi") "id1").2.1

/-- C7: an inbound `"message"` event with `from = "human"`, sender connection
id `S` and text `T` produces exactly one host-pipeline delivery call, with
channel `"agentgate"`, chatType `"direct"`, senderId `S`, chatId `S` and
text `T`. -/
theorem human_message_single_pipeline_delivery (hooks : HooksConfig)
    (accountId : String) (hookResult : HookResult) (now : Nat)
    (S T id ts : String) :
    pipelineCalls (onMessage hooks accountId hookResult now
        (InboundAgentGateMessage.message "human" T id ts S))
      = [{ channel := "agentgate", accountId := accountId, senderId := S,
           chatType := "direct", chatId := S, text := T }] := by
  simp [onMessage, pipelineCalls]

/-- C10: an inbound `"message"` event whose `from` field is not `"human"` is
silently ignored: the handler produces no effect at all — no pipeline call,
no outbound frame, no status update, not even a log line. -/
theorem non_human_message_ignored (hooks : HooksConfig) (accountId : String)
    (hookResult : HookResult) (now : Nat) (from_ T id ts S : String)
    (h : from_ ≠ "human") :
    onMessage hooks accountId hookResult now
        (InboundAgentGateMessage.message from_ T id ts S) = [] := by
  simp [onMessage, h]

/-- Witness for C10 at `from = "claw"`. -/
theorem non_human_message_ignored_example :
    onMessage hooksDisabled "default" hookOk 0
        (InboundAgentGateMessage.message "claw" "hello" "m1" "ts" "u1") = [] :=
  non_human_message_ignored hooksDisabled "default" hookOk 0 "claw" "hello" "m1" "ts" "u1"
    (by decide)

/-- Counterexample to C3 as stated: a wake request arriving while hooks are
disabled sends exactly one frame, and that frame is the `"error"` variant
(`messageId` referencing the original id) — no `"ack"` frame is sent at
all. -/
theorem wake_hooks_disabled_sends_error_frame_not_ack :
    sentFrames (onMessage hooksDisabled "default" hookOk 0
        (InboundAgentGateMessage.wake "wake2" "wake up" none))
      = [{ type := "error", error := some "Hooks not enabled in OpenClaw config",
           messageId := some "wake2" }]
    ∧ ((sentFrames (onMessage hooksDisabled "default" hookOk 0
          (InboundAgentGateMessage.wake "wake2" "wake up" none))).all
        (fun f => f.type != "ack")) = true := by
  exact ⟨by decide, by decide⟩

/-- C3 (amended): a wake request arriving while hooks are disabled — and the
resolved `enabled` flag is false whenever the config flag is not `true` or
the token is empty — makes the handler send an error-notification frame
(`type "error"`) whose `messageId` references the original message id, and
perform no HTTP call to the local hook endpoint. -/
theorem wake_hooks_disabled_error_frame_no_http (hooks : HooksConfig)
    (accountId : String) (hookResult : HookResult) (now : Nat)
    (id text : String) (mode : Option String)
    (hdis : hooks.enabled = false) :
    sentFrames (onMessage hooks accountId hookResult now
        (InboundAgentGateMessage.wake id text mode))
      = [{ type := "error", error := some "Hooks not enabled in OpenClaw config",
           messageId := some id }]
    ∧ ((onMessage hooks accountId hookResult now
          (InboundAgentGateMessage.wake id text mode)).all
        (fun e => !isHttpPost e)) = true
    ∧ (∀ cfg : RawOpenClawConfig,
        cfg.hooksEnabled ≠ some true ∨ cfg.hooksToken.getD "" = "" →
        (resolveHooksConfig cfg).enabled = false) := by
  refine ⟨?_, ?_, ?_⟩
  · simp [onMessage, hdis, sentFrames]
  · simp [onMessage, hdis, isHttpPost]
  · intro cfg hcfg
    rcases hcfg with h | h
    · have hm : (match cfg.hooksEnabled with
          | some true => true
          | _ => false) = false := by
        cases hE : cfg.hooksEnabled with
        | none => rfl
        | some b =>
            cases b with
            | false => rfl
            | true => exact absurd hE h
      simp [resolveHooksConfig, hm]
    · have hm : (cfg.hooksToken.getD "").isEmpty = true := by
        rw [h]; rfl
      simp [resolveHooksConfig, hm]

/-- Witness for C3 (amended) at a concrete disabled-hooks configuration and a
concrete wake message. -/
theorem wake_hooks_disabled_error_frame_no_http_example :
    sentFrames (onMessage hooksDisabled "default" hookOk 0
        (InboundAgentGateMessage.wake "wake9" "ping me" (some "now")))
      = [{ type := "error", error := some "Hooks not enabled in OpenClaw config",
           messageId := some "wake9" }] :=
  (wake_hooks_disabled_error_frame_no_http hooksDisabled "default" hookOk 0
    "wake9" "ping me" (some "now") (by decide)).1

/-- C2 (code evaluation): invoked with the connection open, the reply
callback sends exactly one frame, tagged `"reply"` — not the `"message"`
variant — carrying `replyTo` = the inbound message id and no `connId`
targeting field; invoked with the connection not open it sends nothing and
raises nothing. -/
theorem reply_frame_is_reply_tagged_not_message :
    replyCallback true "msg1" "gen-id" "ts1" "hello back"
        = [ChanEffect.sendFrame replyFrameExample]
    ∧ replyFrameExample.type = "reply"
    ∧ (replyFrameExample.type == "message") = false
    ∧ replyFrameExample.connId = none
    ∧ replyFrameExample.replyTo = some "msg1"
    ∧ replyCallback false "msg1" "gen-id" "ts1" "hello back" = [] := by
  exact ⟨rfl, rfl, by decide, rfl, rfl, rfl⟩

end AgentGate
